import Mathlib

/-!
Shallow embedding of the origin-resolution and route-computation pipeline of
`src/api/generate-map.py` (class `RouteVisualizer` and `handler.do_POST`).

Conventions of the embedding:
* JSON numbers (latitudes, longitudes, distances, durations) are modelled as
  `Rat`; the Python floats of the source carry decimal literals that are taken
  at face value.
* A Python dict field that may be absent is an `Option`; `none` means the key
  is absent.  Python truthiness of such fields is `truthyStr` / `truthyNum`.
* The two outbound services are oracles passed as parameters: `geo` is the
  per-call outcome of `RouteVisualizer.geocode_address` (either coordinates or
  the raised message) and `route` the per-call outcome of
  `RouteVisualizer.get_route`.  `dist` abstracts
  `RouteVisualizer.calculate_distance` (a haversine over transcendental
  float functions, not representable exactly here).
* The caching layer of `geocode_address` (lines 26-63) is modelled separately
  and statefully by `geocode_address` below, with `netCalls` counting the
  network requests a call performs.
-/

/-- Opaque metadata bag carried by a descriptor (the `info` JSON object),
modelled as an association list of string keys and opaque string values. -/
abbrev MetaBag := List (String × String)

/-- Python truthiness of an optional string field: absent (`None`) and the
empty string are falsy, every other string is truthy. -/
def truthyStr : Option String → Bool
  | none => false
  | some s => !(s == "")

/-- Python truthiness of an optional numeric field: absent (`None`) and `0`
are falsy, every other number is truthy. -/
def truthyNum : Option Rat → Bool
  | none => false
  | some x => !(x == 0)

/-- One incoming origin descriptor (an element of `origins_to_process` in
`handler.do_POST`): the JSON object with optional keys `name`, `address`,
`lat`, `lon`, `info`.  `none` models an absent key. -/
structure OriginDescriptor where
  name : Option String := none
  address : Option String := none
  lat : Option Rat := none
  lon : Option Rat := none
  info : Option MetaBag := none
deriving DecidableEq

/-- Python truthiness of the descriptor dict itself (line 266,
`if not origin_obj`): a dict is falsy exactly when it has no keys. -/
def emptyDict (o : OriginDescriptor) : Bool :=
  o.name.isNone && o.address.isNone && o.lat.isNone && o.lon.isNone && o.info.isNone

/-- The validity filter of line 251:
`origin.get('address') or (origin.get('lat') and origin.get('lon')) or origin.get('name')`.
No trimming is applied by the source. -/
def validOrigin (o : OriginDescriptor) : Bool :=
  truthyStr o.address || (truthyNum o.lat && truthyNum o.lon) || truthyStr o.name

/-- Lines 249-252: keep exactly the descriptors passing `validOrigin`. -/
def valid_origins (l : List OriginDescriptor) : List OriginDescriptor :=
  l.filter validOrigin

/-- Whitespace trimming at both ends of a string (the trimming the spec
speaks of; written over the character list so it evaluates in proofs). -/
def specTrim (s : String) : String :=
  String.mk (((s.data.dropWhile Char.isWhitespace).reverse.dropWhile
    Char.isWhitespace).reverse)

/-- The validity requirement as the specification words it (spec §3,
OriginDescriptor invariant): at least one of address, name, explicit
coordinate pair present and non-empty *after trimming*.  Stated only to be
compared with `validOrigin`, which is what the source implements. -/
def specValidOrigin (o : OriginDescriptor) : Bool :=
  truthyStr (o.address.map specTrim) || (o.lat.isSome && o.lon.isSome)
    || truthyStr (o.name.map specTrim)

/-- Result of `RouteVisualizer.get_route` (lines 85-91): geometry as a list of
(lon, lat) points, distance in km, duration in minutes. -/
structure RouteInfo where
  geometry : List (Rat × Rat)
  distance : Rat
  duration : Rat
deriving DecidableEq

/-- The fixed destination configured in `RouteVisualizer.__init__`
(lines 15-20): Biopark Educação, Toledo-PR. -/
structure Destination where
  name : String
  lat : Rat
  lon : Rat
  address : String
deriving DecidableEq

/-- Lines 15-20 of `generate-map.py`. -/
def destination : Destination :=
  { name := "Biopark Educação - Toledo, PR"
    lat := -24617465183385058 / 1000000000000000
    lon := -5370939297263396 / 100000000000000
    address := "Biopark, Edifício Charles Darwin - Avenida Max Planck, 3797 - Toledo, PR, 85920-025" }

/-- Text for the f-string `f"{lat}, {lon}"` of lines 302/338 (the address
fallback when the descriptor has no truthy address).  The exact rendering of
the two numbers is irrelevant to every claim; `toString` on `Rat` stands in
for Python float formatting. -/
def coordText (la lo : Rat) : String :=
  toString la ++ ", " ++ toString lo

/-- Lookup in the metadata bag: `info.get('passageiros', 'N/A')` of
lines 308/344. -/
def passageirosOf (bag : MetaBag) : String :=
  ((bag.find? (fun p => p.1 == "passageiros")).map (fun p => p.2)).getD "N/A"

/-- The dict built by `process_origin` on its success path (lines 300-313) and
its soft-failure path (lines 336-350).  `route_geometry = none` models the
key holding `None`; `error = none` and `info = none` model absent keys. -/
structure OriginData where
  name : String
  address : String
  lat : Rat
  lon : Rat
  distance : Rat
  duration : Rat
  route_geometry : Option (List (Rat × Rat))
  passageiros : String
  error : Option String
  info : Option MetaBag
deriving DecidableEq

/-- Return value of `process_origin` when the descriptor dict is truthy:
either one of the two full dicts of lines 300-313 / 336-350 (`ok`), or the
hard-failure dict `{'error': msg, 'name': name}` of line 357 (`fail`). -/
inductive ProcResult where
  | ok (d : OriginData)
  | fail (name : String) (msg : String)
deriving DecidableEq

/-- Coordinate determination, lines 279-291 of `process_origin`: use the
explicit fields when both are truthy, otherwise geocode the address when
truthy, otherwise geocode the name.  The second component counts the calls
made to the Geocoder (0 or 1). -/
def determineCoords (geo : String → Except String (Rat × Rat))
    (o : OriginDescriptor) (name : String) :
    Except String (Rat × Rat) × Nat :=
  if truthyNum o.lat && truthyNum o.lon then
    -- `lat, lon = float(lat), float(lon)`; under the guard `getD 0` is the
    -- stored value
    (.ok (o.lat.getD 0, o.lon.getD 0), 0)
  else if truthyStr o.address then
    (geo (o.address.getD ""), 1)
  else
    (geo name, 1)

/-- The except-block of `process_origin` (lines 318-357).  `curLat`, `curLon`
are the values of the local variables `lat`, `lon` at the moment the
exception with message `e` was raised (the descriptor fields if geocoding
itself failed; the already-resolved pair if the Router call failed).  The
source f-string wraps the name in single quotes; those two quote characters
are omitted from the modelled message (no claim depends on the exact text). -/
def exceptBlock (geo : String → Except String (Rat × Rat))
    (dist : Rat → Rat → Rat → Rat → Rat) (dest : Rat × Rat)
    (o : OriginDescriptor) (name : String) (info : MetaBag)
    (curLat curLon : Option Rat) (e : String) : ProcResult :=
  -- the fallback coordinate re-determination of lines 322-328 (the Python
  -- local `distance` of line 330 is written out twice below)
  match (if truthyNum curLat && truthyNum curLon then
           Except.ok (curLat.getD 0, curLon.getD 0)
         else if truthyStr o.address then geo (o.address.getD "")
         else geo name : Except String (Rat × Rat)) with
  | .ok (la, lo) =>
    .ok { name := name
          address := if truthyStr o.address then o.address.getD "" else coordText la lo
          lat := la
          lon := lo
          distance := dist la lo dest.1 dest.2
          duration := dist la lo dest.1 dest.2 * (3 / 2)
          route_geometry := none
          passageiros := passageirosOf info
          error := some ("Rota não disponível: " ++ e)
          info := if info.isEmpty then none else some info }
  | .error g =>
    .fail name ("Erro na origem " ++ name ++ ": " ++ g)

/-- The success dict of lines 300-313. -/
def successData (o : OriginDescriptor) (name : String) (info : MetaBag)
    (la lo : Rat) (r : RouteInfo) : OriginData :=
  { name := name
    address := if truthyStr o.address then o.address.getD "" else coordText la lo
    lat := la
    lon := lo
    distance := r.distance
    duration := r.duration
    route_geometry := some r.geometry
    passageiros := passageirosOf info
    error := none
    info := if info.isEmpty then none else some info }

/-- `process_origin` (lines 265-357), parameterised by the outcome oracles of
the two service methods and by the distance estimator. -/
def process_origin (geo : String → Except String (Rat × Rat))
    (route : Rat → Rat → Rat → Rat → Except String RouteInfo)
    (dist : Rat → Rat → Rat → Rat → Rat) (dest : Rat × Rat)
    (o : OriginDescriptor) : Option ProcResult :=
  -- the Python locals `name = origin_obj.get('name', 'Origem')` and
  -- `info = origin_obj.get('info', {})` are written out inline below
  if emptyDict o then none
  else
    match determineCoords geo o (o.name.getD "Origem") with
    | (.error e, _) =>
      -- the try-block raised while geocoding; locals lat, lon still hold the
      -- descriptor fields
      some (exceptBlock geo dist dest o (o.name.getD "Origem") (o.info.getD [])
        o.lat o.lon e)
    | (.ok (la, lo), _) =>
      match route la lo dest.1 dest.2 with
      | .ok r => some (.ok (successData o (o.name.getD "Origem") (o.info.getD []) la lo r))
      | .error e =>
        -- the Router call raised; locals lat, lon hold the resolved pair
        some (exceptBlock geo dist dest o (o.name.getD "Origem") (o.info.getD [])
          (some la) (some lo) e)

/-- The collector test of line 383: `'error' in result and 'name' in result`.
Both dict shapes returned by `process_origin` always carry the `name` key;
the `error` key is present on the soft-failure and hard-failure dicts. -/
def classifiedAsError : ProcResult → Bool
  | .ok d => d.error.isSome
  | .fail _ _ => true

/-- Aggregation of lines 360-391: every surviving descriptor is processed and
its result appended to the `origins` list or the `errors` list according to
`classifiedAsError`.  The source collects in completion order of the worker
pool; this model fixes the linearisation to input order (no claim depends on
the order within the two lists beyond their prefixes). -/
def resolveBatch (geo : String → Except String (Rat × Rat))
    (route : Rat → Rat → Rat → Rat → Except String RouteInfo)
    (dist : Rat → Rat → Rat → Rat → Rat) (dest : Rat × Rat)
    (descs : List OriginDescriptor) : List OriginData × List ProcResult :=
  descs.foldl
    (fun acc o =>
      match process_origin geo route dist dest o with
      | none => acc
      | some (.ok d) =>
        if d.error.isSome then (acc.1, acc.2 ++ [.ok d]) else (acc.1 ++ [d], acc.2)
      | some (.fail n m) => (acc.1, acc.2 ++ [.fail n m]))
    ([], [])

/-- The `err['error']` field read at line 397 from an entry of the errors
list. -/
def errMsg : ProcResult → String
  | .ok d => d.error.getD ""
  | .fail _ m => m

/-- The aggregated message of lines 396-402: the `error` fields of the first
3 entries of the errors list joined by `"; "`, behind the fixed prefix. -/
def aggMsg (errors : List ProcResult) : String :=
  "Erros de geocodificação: " ++ String.intercalate "; " ((errors.take 3).map errMsg)

/-- Outcome of the request after the pipeline ran: a 400 client error with a
message, or the 200 success response carrying the resolved origins (and no
error information). -/
inductive BatchOutcome where
  | clientError (msg : String)
  | successResp (origins : List OriginData)
deriving DecidableEq

/-- The batch-level policy of lines 395-431: all-failed aggregation first,
then the empty-result guard, then the success response. -/
def batchPolicy (origins : List OriginData) (errors : List ProcResult) : BatchOutcome :=
  if !errors.isEmpty && origins.isEmpty then .clientError (aggMsg errors)
  else if origins.isEmpty then .clientError "Nenhuma origem válida foi processada"
  else .successResp origins

/-- The request body as far as the handler inspects it: the optional
`origins` key (list of descriptor objects) and the optional
`selectedOrigins` key (list of address strings). -/
structure RequestBody where
  origins : Option (List OriginDescriptor)
  selectedOrigins : Option (List String)
deriving DecidableEq

/-- Line 241: each `selectedOrigins` entry becomes `{'address': addr}`. -/
def wrapAddress (a : String) : OriginDescriptor :=
  { address := some a }

/-- Lines 220-244: `origins_key = 'selectedOrigins' if 'selectedOrigins' in
data else 'origins'`; `none` models the 400 of line 225 (chosen key absent).
When the chosen key is `selectedOrigins` its strings are wrapped as
address-only descriptors. -/
def originsToProcess (b : RequestBody) : Option (List OriginDescriptor) :=
  match b.selectedOrigins with
  | some addrs => some (addrs.map wrapAddress)
  | none => b.origins

/-- The whole POST handling path of `handler.do_POST` after JSON parsing
(lines 220-431), composed from the pieces above. -/
def handlerOutcome (geo : String → Except String (Rat × Rat))
    (route : Rat → Rat → Rat → Rat → Except String RouteInfo)
    (dist : Rat → Rat → Rat → Rat → Rat) (dest : Rat × Rat)
    (b : RequestBody) : BatchOutcome :=
  match originsToProcess b with
  | none => .clientError "Lista de origens é obrigatória"
  | some otp =>
    let valid := valid_origins otp
    if valid.isEmpty then .clientError "Pelo menos uma origem válida deve ser fornecida"
    else
      let res := resolveBatch geo route dist dest valid
      batchPolicy res.1 res.2

/-- Outcome of one call to `RouteVisualizer.geocode_address` (lines 26-63):
the result (coordinates or raised message), the geocode cache after the call,
and how many network requests the call performed. -/
structure GeoCall where
  res : Except String (Rat × Rat)
  cache : List (String × (Rat × Rat))
  netCalls : Nat

/-- `RouteVisualizer.geocode_address` (lines 26-63).  `net` is the external
service: `some` is a non-empty Nominatim answer (its first result already
parsed), `none` an empty answer.  The cache is the dict
`self.geocode_cache`, keyed by the exact address string; a hit returns the
stored pair with no network call, a successful miss stores the pair before
returning. -/
def geocode_address (net : String → Option (Rat × Rat))
    (cache : List (String × (Rat × Rat))) (address : String) : GeoCall :=
  match cache.lookup address with
  | some c => { res := .ok c, cache := cache, netCalls := 0 }
  | none =>
    match net address with
    | some c =>
      { res := .ok c, cache := (address, c) :: cache, netCalls := 1 }
    | none =>
      { res := .error ("Erro na geocodificação: Endereço não encontrado: " ++ address)
        cache := cache
        netCalls := 1 }

/-- One coordinate of the route cache key of line 68: `f"{x:.6f}"` renders
the coordinate rounded to 6 decimal places, represented here by the rounded
integer numerator `round (x * 10^6)` (two coordinates produce the same
6-decimal text exactly when these integers agree; exact decimal ties, which
no binary float hits, round half-up here). -/
def fmt6 (x : Rat) : Int :=
  round (x * 1000000)

/-- The cache key of `RouteVisualizer.get_route` (line 68): the four
coordinates each formatted to 6 decimal places. -/
def route_cache_key (slat slon elat elon : Rat) : Int × Int × Int × Int :=
  (fmt6 slat, fmt6 slon, fmt6 elat, fmt6 elon)

/-- Line 367. -/
def batch_size : Nat := 5

/-- Line 368: `min(3, len(valid_origins))` — computed once from the whole
surviving list, not per batch. -/
def max_workers (n : Nat) : Nat := min 3 n

/-- The loop of lines 371-390 as a schedule: one entry per iteration of
`for i in range(0, len(valid_origins), batch_size)` with `i = k * batch_size`,
holding the batch (the slice `valid_origins[i:i + batch_size]`), the
worker-pool bound passed to `ThreadPoolExecutor` (which runs at most that
many tasks simultaneously), and whether the 500 ms `time.sleep(0.5)` of
line 390 follows the batch (line 389: exactly when
`i + batch_size < len(valid_origins)`). -/
def batchSchedule (w : Nat) (l : List OriginDescriptor) :
    List (List OriginDescriptor × Nat × Bool) :=
  (List.range ((l.length + batch_size - 1) / batch_size)).map
    (fun k => ((l.drop (k * batch_size)).take batch_size, w,
      decide (k * batch_size + batch_size < l.length)))

/-- The schedule the handler actually runs (lines 366-390). -/
def pipelineSchedule (valid : List OriginDescriptor) :
    List (List OriginDescriptor × Nat × Bool) :=
  batchSchedule (max_workers valid.length) valid

/-! ### Helper lemmas about the batch schedule -/

/-- Every entry of `batchSchedule` is a non-empty slice of at most
`batch_size` descriptors and carries the worker bound `w`. -/
theorem batchSchedule_mem (w : Nat) (l : List OriginDescriptor)
    (b : List OriginDescriptor × Nat × Bool) (hb : b ∈ batchSchedule w l) :
    b.1 ≠ [] ∧ b.1.length ≤ batch_size ∧ b.2.1 = w := by
  rcases List.mem_map.mp hb with ⟨k, hk, rfl⟩
  have hk' : k < (l.length + batch_size - 1) / batch_size := List.mem_range.mp hk
  have h5 : k * batch_size < l.length := by
    simp only [batch_size] at hk' ⊢
    omega
  refine ⟨?_, List.length_take_le _ _, rfl⟩
  have hpos : 0 < ((l.drop (k * batch_size)).take batch_size).length := by
    simp only [List.length_take, List.length_drop, batch_size] at *
    omega
  exact List.ne_nil_of_length_pos hpos

/-- The pause flag of the i-th batch is set exactly when a further batch
follows. -/
theorem batchSchedule_flag (w : Nat) (l : List OriginDescriptor) (i : Nat)
    (hi : i < (batchSchedule w l).length) :
    ((batchSchedule w l).get ⟨i, hi⟩).2.2
      = decide (i + 1 < (batchSchedule w l).length) := by
  simp only [batchSchedule, List.get_eq_getElem, List.getElem_map,
    List.getElem_range, List.length_map, List.length_range] at hi ⊢
  rw [decide_eq_decide]
  simp only [batch_size] at hi ⊢
  omega

/-- Unfolding of the schedule at a non-empty list: first the leading slice of
`batch_size` descriptors, then the schedule of the rest. -/
theorem batchSchedule_cons_eq (w : Nat) (l : List OriginDescriptor) (h : l ≠ []) :
    batchSchedule w l
      = (l.take batch_size, w, decide (batch_size < l.length))
        :: batchSchedule w (l.drop batch_size) := by
  have hl : 1 ≤ l.length := List.length_pos.mpr h
  have hm : (l.length + batch_size - 1) / batch_size
      = ((l.drop batch_size).length + batch_size - 1) / batch_size + 1 := by
    simp only [List.length_drop, batch_size]
    omega
  unfold batchSchedule
  rw [hm, List.range_succ_eq_map, List.map_cons, List.map_map]
  congr 1
  apply List.map_congr_left
  intro a _
  simp only [Function.comp_apply, List.drop_drop, Prod.mk.injEq, List.length_drop,
    decide_eq_decide]
  refine ⟨?_, ?_⟩
  · have hmul : (a + 1) * batch_size = batch_size + a * batch_size := by ring
    rw [hmul]
  · refine ⟨trivial, ?_⟩
    simp only [batch_size, Nat.succ_eq_add_one]
    omega

/-- The batches of the schedule, concatenated in order, give back the input
list. -/
theorem batchSchedule_join_aux (w : Nat) : ∀ (n : Nat) (l : List OriginDescriptor),
    l.length ≤ n → ((batchSchedule w l).map (fun x => x.1)).flatten = l := by
  intro n
  induction n with
  | zero =>
    intro l hl
    have hnil : l = [] := List.eq_nil_of_length_eq_zero (Nat.le_zero.mp hl)
    subst hnil
    rfl
  | succ n ih =>
    intro l hl
    cases l with
    | nil => rfl
    | cons x xs =>
      rw [batchSchedule_cons_eq w _ (by simp)]
      simp only [List.map_cons, List.flatten_cons]
      rw [ih ((x :: xs).drop batch_size)
        (by simp only [List.length_drop, List.length_cons, batch_size] at hl ⊢; omega)]
      exact List.take_append_drop _ _

/-- Closed form of `batchSchedule_join_aux`. -/
theorem batchSchedule_join (w : Nat) (l : List OriginDescriptor) :
    ((batchSchedule w l).map (fun x => x.1)).flatten = l :=
  batchSchedule_join_aux w l.length l le_rfl

/-! ### Claims -/

/-- Claim C1: the batch ends in the all-failed outcome exactly when the error
list is non-empty and the resolved list is empty; in that case the caller
receives the single message obtained by joining the `error` fields of the
first 3 collected errors with "; " (behind the fixed prefix of line 402);
when the resolved list is non-empty, the outcome is the success response
carrying the resolved origins and is entirely independent of the error
list — the collected errors are not surfaced. -/
theorem C1_batch_failure_policy (os : List OriginData) (es es' : List ProcResult)
    (d : OriginData) :
    (batchPolicy os es = .clientError (aggMsg es) ↔ es ≠ [] ∧ os = []) ∧
    batchPolicy (d :: os) es = .successResp (d :: os) ∧
    batchPolicy (d :: os) es = batchPolicy (d :: os) es' := by
  refine ⟨⟨?_, ?_⟩, ?_, ?_⟩
  · intro h
    cases es with
    | nil =>
      cases os with
      | nil => exact absurd h (by decide)
      | cons a t => simp [batchPolicy] at h
    | cons e t =>
      cases os with
      | nil => exact ⟨List.cons_ne_nil _ _, rfl⟩
      | cons a t2 => simp [batchPolicy] at h
  · rintro ⟨h1, rfl⟩
    cases es with
    | nil => exact absurd rfl h1
    | cons e t => simp [batchPolicy]
  · simp [batchPolicy]
  · simp [batchPolicy]

/-- Claim C2, evaluated at the failing input (code bug): with explicit
coordinates and a failing Router, `process_origin` builds the soft-failure
dict exactly as claimed (no geometry, estimator distance, duration =
distance * 1.5, error note, the coordinates) — but because that dict carries
both an `error` and a `name` key, the collector test of line 383 sends it to
the error list: the batch ends with `resolved = []` and the soft failure in
`errors`, contradicting the claim that the error list receives no entry. -/
theorem C2_soft_failure_misrouted :
    resolveBatch (fun _ => .error "serviço indisponível")
      (fun _ _ _ _ => .error "Erro ao calcular rota: Rota não encontrada")
      (fun _ _ _ _ => 7) (destination.lat, destination.lon)
      [{ name := some "A", lat := some (-24), lon := some (-53) }]
      = ([],
        [.ok { name := "A"
               address := coordText (-24) (-53)
               lat := -24
               lon := -53
               distance := 7
               duration := 7 * (3 / 2)
               route_geometry := none
               passageiros := "N/A"
               error := some "Rota não disponível: Erro ao calcular rota: Rota não encontrada"
               info := none }]) := by
  rfl

/-- Claim C3 (counterexample): when a body carries both keys, the handler
processes the `selectedOrigins` strings (wrapped as address-only
descriptors), not the sequence under `origins`. -/
theorem C3_selected_precedence_counterexample :
    originsToProcess { origins := some [{ name := some "X" }],
                       selectedOrigins := some ["Rua Y"] }
      = some [wrapAddress "Rua Y"] ∧
    originsToProcess { origins := some [{ name := some "X" }],
                       selectedOrigins := some ["Rua Y"] }
      ≠ some [{ name := some "X" }] := by
  exact ⟨rfl, by decide⟩

/-- Claim C3 (amended): `selectedOrigins` takes precedence — whenever it is
present its strings are processed (wrapped as address-only descriptors), and
the `origins` value is used only when `selectedOrigins` is absent. -/
theorem C3_selected_origins_precedence (os : Option (List OriginDescriptor))
    (sel : List String) :
    originsToProcess { origins := os, selectedOrigins := some sel }
      = some (sel.map wrapAddress) ∧
    originsToProcess { origins := os, selectedOrigins := none } = os :=
  ⟨rfl, rfl⟩

/-- Claim C4: when `geocode_address` resolves an address successfully, the
pair is stored in the cache under the exact address string, and a repeated
call returns the identical pair with zero network requests and an unchanged
cache. -/
theorem C4_geocode_cache_idempotent (net : String → Option (Rat × Rat))
    (cache : List (String × (Rat × Rat))) (A : String) (p : Rat × Rat)
    (h : (geocode_address net cache A).res = .ok p) :
    (geocode_address net cache A).cache.lookup A = some p ∧
    geocode_address net (geocode_address net cache A).cache A
      = { res := .ok p, cache := (geocode_address net cache A).cache,
          netCalls := 0 } := by
  cases hc : cache.lookup A with
  | some c =>
    have he : geocode_address net cache A
        = { res := .ok c, cache := cache, netCalls := 0 } := by
      simp [geocode_address, hc]
    rw [he] at h
    simp only [Except.ok.injEq] at h
    subst h
    rw [he]
    exact ⟨hc, he⟩
  | none =>
    cases hn : net A with
    | some c =>
      have he : geocode_address net cache A
          = { res := .ok c, cache := (A, c) :: cache, netCalls := 1 } := by
        simp [geocode_address, hc, hn]
      rw [he] at h
      simp only [Except.ok.injEq] at h
      subst h
      rw [he]
      constructor
      · simp [List.lookup]
      · simp [geocode_address, List.lookup]
    | none =>
      simp [geocode_address, hc, hn] at h

/-- Witness for C4 at a concrete resolving address. -/
theorem C4_geocode_cache_witness :
    (geocode_address (fun _ => some ((1 : Rat), (2 : Rat))) [] "Rua X").cache.lookup "Rua X"
        = some (1, 2) ∧
    geocode_address (fun _ => some ((1 : Rat), (2 : Rat)))
        (geocode_address (fun _ => some ((1 : Rat), (2 : Rat))) [] "Rua X").cache "Rua X"
      = { res := .ok (1, 2),
          cache := (geocode_address (fun _ => some ((1 : Rat), (2 : Rat))) [] "Rua X").cache,
          netCalls := 0 } :=
  C4_geocode_cache_idempotent _ [] "Rua X" (1, 2) rfl

/-- Monotonicity of rounding over the rationals. -/
theorem round_mono_rat {x y : Rat} (h : x ≤ y) : round x ≤ round y := by
  rw [round_eq, round_eq]
  exact Int.floor_le_floor (by linarith)

/-- Claim C5 (counterexample): a perturbation of 1e-7 can cross a 6-decimal
rounding boundary, so the route cache key is not stable under all jitter
below 1e-6: at p = 0.00000045 the keys of (p, 0) and (p + 1e-7, 0) differ. -/
theorem C5_jitter_counterexample :
    route_cache_key (45 / 100000000) 0 0 0
      ≠ route_cache_key (45 / 100000000 + 1 / 10000000) 0 0 0 := by
  have h1 : fmt6 (45 / 100000000) = 0 := by norm_num [fmt6, round_eq]
  have h2 : fmt6 (45 / 100000000 + 1 / 10000000) = 1 := by norm_num [fmt6, round_eq]
  have h0 : fmt6 0 = 0 := by norm_num [fmt6, round_eq]
  have k1 : route_cache_key (45 / 100000000) 0 0 0 = (0, 0, 0, 0) := by
    unfold route_cache_key
    rw [h1, h0]
  have k2 : route_cache_key (45 / 100000000 + 1 / 10000000) 0 0 0 = (1, 0, 0, 0) := by
    unfold route_cache_key
    rw [h2, h0]
  rw [k1, k2]
  decide

/-- Claim C5 (amended): the key collapses coordinates that round to the same
6-decimal value; adding 1e-7 moves the rounded coordinate by at most one
unit of the sixth decimal place, and the two keys agree exactly when the two
values round alike (jitter below 1e-6 preserves the key only when it does
not cross a rounding boundary). -/
theorem C5_route_key_rounding (p q a b : Rat) :
    fmt6 p ≤ fmt6 (p + 1 / 10000000) ∧
    fmt6 (p + 1 / 10000000) ≤ fmt6 p + 1 ∧
    (route_cache_key (p + 1 / 10000000) q a b = route_cache_key p q a b ↔
      fmt6 (p + 1 / 10000000) = fmt6 p) := by
  have he : (p + 1 / 10000000) * 1000000 = p * 1000000 + 1 / 10 := by ring
  refine ⟨?_, ?_, ?_⟩
  · unfold fmt6
    rw [he]
    exact round_mono_rat (by linarith)
  · unfold fmt6
    rw [he]
    have h1 : round (p * 1000000 + 1 / 10) ≤ round (p * 1000000 + ((1 : Int) : Rat)) :=
      round_mono_rat (by push_cast; linarith)
    rwa [round_add_int] at h1
  · simp [route_cache_key, Prod.ext_iff]

/-- Claim C6 (counterexample): the filter of line 251 does not trim — a
descriptor whose only field is the whitespace-only address " " is truthy and
is kept, while the spec-worded predicate (with trimming) would drop it. -/
theorem C6_whitespace_counterexample :
    valid_origins [{ address := some " " }] = [{ address := some " " }] ∧
    specValidOrigin { address := some " " } = false := by
  exact ⟨rfl, by decide⟩

/-- Claim C6 (amended): a descriptor survives the normalization filter iff it
carries a non-empty address string, a truthy (both non-zero) coordinate
pair, or a non-empty name — with no trimming applied, so a whitespace-only
address already counts as present. -/
theorem C6_validity_filter (l : List OriginDescriptor) (o : OriginDescriptor) :
    o ∈ valid_origins l ↔
      o ∈ l ∧ (truthyStr o.address || (truthyNum o.lat && truthyNum o.lon)
        || truthyStr o.name) = true := by
  simp [valid_origins, List.mem_filter, validOrigin]

/-- Claim C7 (counterexample): an address that is a two-element
comma-separated numeric string is not parsed as coordinates — the resolution
step passes it to the Geocoder (one call) and uses whatever the service
answers, instead of the pair written in the string with zero calls. -/
theorem C7_pseudo_address_counterexample :
    determineCoords (fun _ => .ok (5, 6)) { address := some "-24.7, -53.7" } "Origem"
      = (.ok (5, 6), 1) ∧
    determineCoords (fun _ => .ok (5, 6)) { address := some "-24.7, -53.7" } "Origem"
      ≠ (.ok ((-247 : Rat) / 10, (-537 : Rat) / 10), 0) := by
  refine ⟨rfl, fun hcontra => absurd (congrArg (fun r => r.2) hcontra) (by decide)⟩

/-- Claim C7 (amended): whenever the explicit coordinate fields are not both
truthy and the address is non-empty, the address string — two-element
comma-separated numeric strings included — is sent to the Geocoder (exactly
one call) and the Geocoder's answer is used. -/
theorem C7_address_always_geocoded (geo : String → Except String (Rat × Rat))
    (o : OriginDescriptor) (name : String)
    (hc : (truthyNum o.lat && truthyNum o.lon) = false)
    (ha : truthyStr o.address = true) :
    determineCoords geo o name = (geo (o.address.getD ""), 1) := by
  simp [determineCoords, hc, ha]

/-- Witness for the amended C7 at a concrete pseudo-address descriptor. -/
theorem C7_address_always_geocoded_witness :
    determineCoords (fun _ => .ok (5, 6))
        { address := some "-24.7, -53.7", lat := some 0 } "Origem"
      = ((fun _ => Except.ok ((5 : Rat), (6 : Rat))) "-24.7, -53.7", 1) :=
  C7_address_always_geocoded _ _ _ (by decide) (by decide)

/-- Helper: any dict built by the except-block carries the bag iff it is
non-empty. -/
theorem exceptBlock_info (geo : String → Except String (Rat × Rat))
    (dist : Rat → Rat → Rat → Rat → Rat) (dest : Rat × Rat)
    (o : OriginDescriptor) (name : String) (info : MetaBag)
    (curLat curLon : Option Rat) (e : String) (d : OriginData)
    (h : exceptBlock geo dist dest o name info curLat curLon e = .ok d) :
    d.info = if info.isEmpty then none else some info := by
  unfold exceptBlock at h
  split at h
  · simp only [ProcResult.ok.injEq] at h
    subst h
    rfl
  · simp at h

/-- Claim C8 (counterexample): an empty metadata bag is not carried through —
on a successful resolution of a descriptor whose `info` key holds the empty
bag, the emitted dict has no `info` key at all (rather than the empty bag). -/
theorem C8_empty_bag_counterexample :
    process_origin (fun _ => .error "e")
        (fun _ _ _ _ => .ok { geometry := [(1, 2)], distance := 3, duration := 4 })
        (fun _ _ _ _ => 0) (0, 0)
        { name := some "A", lat := some 1, lon := some 2, info := some [] }
      = some (.ok { name := "A", address := coordText 1 2, lat := 1, lon := 2,
                    distance := 3, duration := 4, route_geometry := some [(1, 2)],
                    passageiros := "N/A", error := none, info := none }) ∧
    (none : Option MetaBag) ≠ some [] := by
  exact ⟨rfl, by decide⟩

/-- Claim C8 (amended): every dict emitted by `process_origin` on its success
or soft-failure path carries the descriptor's metadata bag unmodified when
the bag is non-empty, and carries no bag at all when the bag is empty or the
`info` key is absent. -/
theorem C8_info_passthrough (geo : String → Except String (Rat × Rat))
    (route : Rat → Rat → Rat → Rat → Except String RouteInfo)
    (dist : Rat → Rat → Rat → Rat → Rat) (dest : Rat × Rat)
    (o : OriginDescriptor) (d : OriginData)
    (h : process_origin geo route dist dest o = some (.ok d)) :
    d.info = if (o.info.getD []).isEmpty then none
             else some (o.info.getD []) := by
  unfold process_origin at h
  by_cases he : emptyDict o = true
  · rw [if_pos he] at h
    exact absurd h (by simp)
  · rw [if_neg he] at h
    split at h
    · simp only [Option.some.injEq] at h
      exact exceptBlock_info _ _ _ _ _ _ _ _ _ _ h
    · split at h
      · simp only [Option.some.injEq, ProcResult.ok.injEq] at h
        subst h
        rfl
      · simp only [Option.some.injEq] at h
        exact exceptBlock_info _ _ _ _ _ _ _ _ _ _ h

/-- Witness for the amended C8: a descriptor with a non-empty bag whose
resolution succeeds; the emitted dict carries exactly that bag. -/
theorem C8_info_passthrough_witness :
    OriginData.info
        { name := "A", address := coordText 1 2, lat := 1, lon := 2, distance := 3,
          duration := 4, route_geometry := some [], passageiros := "12",
          error := none, info := some [("passageiros", "12")] }
      = if ((some [("passageiros", "12")] : Option MetaBag).getD []).isEmpty then none
        else some ((some [("passageiros", "12")] : Option MetaBag).getD []) :=
  C8_info_passthrough (fun _ => .error "e")
    (fun _ _ _ _ => .ok { geometry := [], distance := 3, duration := 4 })
    (fun _ _ _ _ => 0) (0, 0)
    { name := some "A", lat := some 1, lon := some 2, info := some [("passageiros", "12")] }
    { name := "A", address := coordText 1 2, lat := 1, lon := 2, distance := 3,
      duration := 4, route_geometry := some [], passageiros := "12",
      error := none, info := some [("passageiros", "12")] }
    rfl

/-- Claim C9 (counterexample): the worker-pool bound is min(3, number of all
surviving descriptors), not min(3, batch length): with 6 surviving
descriptors the second batch holds a single descriptor yet is dispatched
with a pool bound of 3, where min(3, batch length) would be 1. -/
theorem C9_pool_size_counterexample :
    (pipelineSchedule (List.map wrapAddress ["a", "b", "c", "d", "e", "f"])).map
        (fun x => (x.1.length, x.2.1, x.2.2))
      = [(5, 3, true), (1, 3, false)] ∧ min 3 1 = 1 := by
  exact ⟨rfl, rfl⟩

/-- Claim C9 (amended): the surviving descriptors are processed in successive
slices of 5 that concatenate back to the input (the last batch possibly
shorter, every batch non-empty); each batch is dispatched on a worker pool
bounded by min(3, number of all surviving descriptors) — hence by 3, the
rate-limit ceiling on simultaneous resolutions; the schedule is sequential
(a batch is drained before the next entry runs) and the 500 ms pause flag is
set after every batch except the last. -/
theorem C9_batching_schedule (valid : List OriginDescriptor)
    (b : List OriginDescriptor × Nat × Bool) (hb : b ∈ pipelineSchedule valid)
    (i : Nat) (hi : i < (pipelineSchedule valid).length) :
    ((pipelineSchedule valid).map (fun x => x.1)).flatten = valid ∧
    b.1 ≠ [] ∧ b.1.length ≤ batch_size ∧
    b.2.1 = min 3 valid.length ∧ b.2.1 ≤ 3 ∧
    ((pipelineSchedule valid).get ⟨i, hi⟩).2.2
      = decide (i + 1 < (pipelineSchedule valid).length) := by
  obtain ⟨h1, h2, h3⟩ := batchSchedule_mem (max_workers valid.length) valid b hb
  refine ⟨batchSchedule_join _ valid, h1, h2, h3, ?_, batchSchedule_flag _ valid i hi⟩
  rw [h3]
  exact Nat.min_le_left _ _

/-- Witness for the amended C9 at a concrete two-descriptor input (one batch,
pool bound min(3,2) = 2, no trailing pause). -/
theorem C9_batching_schedule_witness :
    ((pipelineSchedule [wrapAddress "a", wrapAddress "b"]).map (fun x => x.1)).flatten
        = [wrapAddress "a", wrapAddress "b"] ∧
    ([wrapAddress "a", wrapAddress "b"] : List OriginDescriptor) ≠ [] ∧
    ([wrapAddress "a", wrapAddress "b"] : List OriginDescriptor).length ≤ batch_size ∧
    (2 : Nat) = min 3 ([wrapAddress "a", wrapAddress "b"] : List OriginDescriptor).length ∧
    (2 : Nat) ≤ 3 ∧
    ((pipelineSchedule [wrapAddress "a", wrapAddress "b"]).get ⟨0, by decide⟩).2.2
      = decide (0 + 1 < (pipelineSchedule [wrapAddress "a", wrapAddress "b"]).length) :=
  C9_batching_schedule [wrapAddress "a", wrapAddress "b"]
    ([wrapAddress "a", wrapAddress "b"], 2, false) (by decide) 0 (by decide)

/-- Claim C10: the validity filter and the coordinate determination test the
coordinate fields for truthiness, not presence — a 0 is falsy.  A descriptor
with lat = 0 (or lon = 0) and neither address nor name is dropped before
resolution; one that also carries a non-empty address survives, and its
address is geocoded instead of the explicit pair being used. -/
theorem C10_zero_coordinate_truthiness (geo : String → Except String (Rat × Rat))
    (a nm : String) (la lo : Option Rat) (ha : a ≠ "") :
    validOrigin { lat := some 0, lon := lo } = false ∧
    validOrigin { lat := la, lon := some 0 } = false ∧
    validOrigin { address := some a, lat := some 0, lon := lo } = true ∧
    determineCoords geo { address := some a, lat := some 0, lon := lo } nm
      = (geo a, 1) ∧
    determineCoords geo { address := some a, lat := la, lon := some 0 } nm
      = (geo a, 1) := by
  have haT : truthyStr (some a) = true := by
    simp [truthyStr, ha]
  refine ⟨?_, ?_, ?_, ?_, ?_⟩
  · simp [validOrigin, truthyStr, truthyNum]
  · simp [validOrigin, truthyStr, truthyNum]
  · simp [validOrigin, haT]
  · simp [determineCoords, truthyNum, haT]
  · simp [determineCoords, truthyNum, haT]

/-- Witness for C10 at concrete inputs. -/
theorem C10_zero_coordinate_truthiness_witness :
    validOrigin { lat := some 0, lon := some 5 } = false ∧
    validOrigin { lat := some 5, lon := some 0 } = false ∧
    validOrigin { address := some "Rua X", lat := some 0, lon := some 5 } = true ∧
    determineCoords (fun _ => .ok (1, 2))
        { address := some "Rua X", lat := some 0, lon := some 5 } "N"
      = ((fun _ => Except.ok ((1 : Rat), (2 : Rat))) "Rua X", 1) ∧
    determineCoords (fun _ => .ok (1, 2))
        { address := some "Rua X", lat := some 5, lon := some 0 } "N"
      = ((fun _ => Except.ok ((1 : Rat), (2 : Rat))) "Rua X", 1) :=
  C10_zero_coordinate_truthiness _ "Rua X" "N" (some 5) (some 5) (by decide)
